import Mathlib

/-!
Verification development for the GBDX workflow client
(gbdxtools/workflow.py): a shallow embedding of the `Workflow` class and
proofs of the spec's testable properties about it.

The HTTP session (`gbdx_connection`), the `requests` response object and
the logger are external collaborators of the module; they are modelled
here as explicit data: a connection is a function from the request the
client builds to the transport's reply, a response carries its status
code, raw text and (already parsed, when well-formed) JSON body, and
logging/printing are returned as lists of strings.
-/

namespace Gbdxtools

/-- JSON values, as produced by `json.loads` / `response.json()`. -/
inductive Json where
  | str : String → Json
  | num : Int → Json
  | bool : Bool → Json
  | null : Json
  | arr : List Json → Json
  | obj : List (String × Json) → Json

/-- Field lookup on a JSON object (`none` when the key is missing or the
value is not an object). Mirrors Python `dict.get`. -/
def Json.get? : Json → String → Option Json
  | .obj fields, key => fields.lookup key
  | _, _ => none

/-- Element lookup on a JSON array. -/
def Json.getIdx? : Json → Nat → Option Json
  | .arr xs, i => xs[i]?
  | _, _ => none

/-- Errors a client call can end in. `requestFailed` is the spec's
RequestFailed / `requests.HTTPError` (it carries the status code and the
response body); the spec's NotFound is its 404 case, see
`ClientError.isNotFound`. `jsonError` is the ValueError raised by
`response.json()` on a non-JSON body; `keyError`, `typeError` and
`attributeError` are the Python exceptions of the same names. -/
inductive ClientError where
  | requestFailed : Nat → String → ClientError
  | jsonError : String → ClientError
  | keyError : String → ClientError
  | typeError : String → ClientError
  | attributeError : String → ClientError
deriving DecidableEq

/-- The spec's NotFound error kind: a RequestFailed carrying code 404. -/
def ClientError.isNotFound : ClientError → Bool
  | .requestFailed 404 _ => true
  | _ => false

/-- An HTTP response: status code, raw body text, and the result of
parsing the body as JSON (`none` when the body is not valid JSON). -/
structure Response where
  status_code : Nat
  text : String
  jsonBody : Option Json

/-- Modelled from the spec's transport abstraction (the session and the
`requests` library are external collaborators): `raise_for_status`
succeeds exactly on a 2xx status and otherwise fails with RequestFailed
carrying the status code and body. -/
def Response.raise_for_status (r : Response) : Except ClientError Unit :=
  if 200 ≤ r.status_code ∧ r.status_code < 300 then .ok ()
  else .error (.requestFailed r.status_code r.text)

/-- `response.json()`: the parsed body, or a ValueError on a non-JSON
body. -/
def Response.json (r : Response) : Except ClientError Json :=
  match r.jsonBody with
  | some j => .ok j
  | none => .error (.jsonError r.text)

/-- Python subscript `j[key]` on a parsed JSON value: KeyError when the
key is missing from an object, TypeError when the value is not an object
(a list, string, number, boolean or None is not subscriptable by a
string key). -/
def jsonSubscript (j : Json) (key : String) : Except ClientError Json :=
  match j with
  | .obj fields =>
    match fields.lookup key with
    | some v => .ok v
    | none => .error (.keyError key)
  | _ => .error (.typeError key)

/-- HTTP verbs used by the client. -/
inductive Verb where
  | get
  | post
deriving DecidableEq

/-- The request the client hands to the session: verb, URL, the `json=`
keyword payload and the `data=` keyword payload. -/
structure Request where
  verb : Verb
  url : String
  jsonArg : Option Json
  dataArg : Option String

/-- The transport's reply: either a response object, or a TypeError
raised by the session before the request is sent (the case
`Workflow.launch` catches). -/
inductive TransportResult where
  | resp : Response → TransportResult
  | raiseTypeError : String → TransportResult

/-- The authenticated session: maps the request the client builds to the
transport's reply. -/
abbrev GbdxConnection := Request → TransportResult

/-- The S3-credentials collaborator's `info` mapping, restricted to the
two keys the client reads. `pfx` models the source key named `prefix`
(that identifier is not usable here). -/
structure S3Info where
  bucket : String
  pfx : String

/-- The `Workflow` instance state: the GBDX connection and the S3
interface (the logger is modelled by the `logs` output of each call). -/
structure Workflow where
  gbdx_connection : GbdxConnection
  s3 : S3Info

/-- The outcome of one client call: the returned value or the raised
error, plus the `logger.debug` messages and `print` output it emitted. -/
structure CallResult (α : Type) where
  result : Except ClientError α
  logs : List String
  prints : List String

/-- Base URL of the workflows collection. -/
def workflowsUrl : String := "https://geobigdata.io/workflows/v1/workflows"

/-- Base URL of the tasks collection. -/
def tasksUrl : String := "https://geobigdata.io/workflows/v1/tasks"

/-- Base URL of the batch-workflows collection. -/
def batchWorkflowsUrl : String := "https://geobigdata.io/workflows/v1/batch_workflows"

/-- `Workflow.launch`: POST the workflow to the collection URL. A
TypeError (from the session, or from subscripting a non-dict body) is
caught: a debug line is logged and None (`.ok none`) is returned. On a
non-2xx response the status code and body are printed and the
`raise_for_status` error propagates. On 2xx the `id` field of the parsed
body is returned. -/
def Workflow.launch (w : Workflow) (workflow : Json) : CallResult (Option Json) :=
  match w.gbdx_connection ⟨.post, workflowsUrl, some workflow, none⟩ with
  | .raiseTypeError _ => ⟨.ok none, ["Workflow not launched!"], []⟩
  | .resp r =>
    match r.raise_for_status with
    | .ok _ =>
      match r.json with
      | .error (.typeError _) => ⟨.ok none, ["Workflow not launched!"], []⟩
      | .error e => ⟨.error e, [], []⟩
      | .ok j =>
        match jsonSubscript j "id" with
        | .ok v => ⟨.ok (some v), [], []⟩
        | .error (.typeError _) => ⟨.ok none, ["Workflow not launched!"], []⟩
        | .error e => ⟨.error e, [], []⟩
    | .error e =>
      ⟨.error e, [],
        ["GBDX API Status Code: " ++ toString r.status_code,
         "GBDX API Response: " ++ r.text]⟩

/-- `Workflow.status`: GET the workflow resource and return the `state`
field of the parsed body. (The source performs no `raise_for_status`
here.) -/
def Workflow.status (w : Workflow) (workflow_id : String) : CallResult Json :=
  let lg := ["Get status of workflow: " ++ workflow_id]
  match w.gbdx_connection ⟨.get, workflowsUrl ++ "/" ++ workflow_id, none, none⟩ with
  | .raiseTypeError m => ⟨.error (.typeError m), lg, []⟩
  | .resp r =>
    match r.json with
    | .ok j => ⟨jsonSubscript j "state", lg, []⟩
    | .error e => ⟨.error e, lg, []⟩

/-- `Workflow.events`: GET the workflow's `/events` sub-resource and
return the `Events` field of the parsed body. (No `raise_for_status`
here either.) -/
def Workflow.events (w : Workflow) (workflow_id : String) : CallResult Json :=
  let lg := ["Get events of workflow: " ++ workflow_id]
  match w.gbdx_connection ⟨.get, workflowsUrl ++ "/" ++ workflow_id ++ "/events", none, none⟩ with
  | .raiseTypeError m => ⟨.error (.typeError m), lg, []⟩
  | .resp r =>
    match r.json with
    | .ok j => ⟨jsonSubscript j "Events", lg, []⟩
    | .error e => ⟨.error e, lg, []⟩

/-- `Workflow.cancel`: POST an empty body to the workflow's `/cancel`
sub-resource and `raise_for_status`; returns nothing on success. -/
def Workflow.cancel (w : Workflow) (workflow_id : String) : CallResult Unit :=
  let lg := ["Canceling workflow: " ++ workflow_id]
  match w.gbdx_connection ⟨.post, workflowsUrl ++ "/" ++ workflow_id ++ "/cancel", none, some ""⟩ with
  | .raiseTypeError m => ⟨.error (.typeError m), lg, []⟩
  | .resp r => ⟨r.raise_for_status, lg, []⟩

/-- `Workflow.list_tasks`: GET the tasks collection, `raise_for_status`,
return the parsed body. -/
def Workflow.list_tasks (w : Workflow) : CallResult Json :=
  match w.gbdx_connection ⟨.get, tasksUrl, none, none⟩ with
  | .raiseTypeError m => ⟨.error (.typeError m), [], []⟩
  | .resp r =>
    match r.raise_for_status with
    | .ok _ => ⟨r.json, [], []⟩
    | .error e => ⟨.error e, [], []⟩

/-- `Workflow.describe_task`: GET the task resource, `raise_for_status`,
return the full parsed body. -/
def Workflow.describe_task (w : Workflow) (task_name : String) : CallResult Json :=
  match w.gbdx_connection ⟨.get, tasksUrl ++ "/" ++ task_name, none, none⟩ with
  | .raiseTypeError m => ⟨.error (.typeError m), [], []⟩
  | .resp r =>
    match r.raise_for_status with
    | .ok _ => ⟨r.json, [], []⟩
    | .error e => ⟨.error e, [], []⟩

/-- Attribute names available on a Python 3 built-in exception instance
(the relevant subset): Python 3 removed the `message` attribute that
Python 2 exceptions carried. -/
def py3ExceptionAttrs : List String := ["args"]

/-- Python attribute access `e.attr` on an exception instance whose
`args` render as `argsRepr`: AttributeError when the attribute does not
exist. -/
def pyExceptionGetattr (attrName : String) (argsRepr : String) : Except ClientError String :=
  if attrName ∈ py3ExceptionAttrs then .ok argsRepr
  else .error (.attributeError attrName)

/-- `Workflow.launch_batch_workflow`: POST the batch workflow and return
the `batch_workflow_id` field of the parsed body. The `except TypeError`
handler formats `e.message` into its debug line, an attribute access
that itself raises under Python 3 (see `pyExceptionGetattr`). There is
no `raise_for_status` on this path. -/
def Workflow.launch_batch_workflow (w : Workflow) (batch_workflow : Json) : CallResult (Option Json) :=
  match w.gbdx_connection ⟨.post, batchWorkflowsUrl, some batch_workflow, none⟩ with
  | .raiseTypeError msg =>
    match pyExceptionGetattr "message" msg with
    | .ok m => ⟨.ok none, ["Batch Workflow not launched, reason: " ++ m], []⟩
    | .error e => ⟨.error e, [], []⟩
  | .resp r =>
    match r.json with
    | .error (.typeError m) =>
      match pyExceptionGetattr "message" m with
      | .ok m2 => ⟨.ok none, ["Batch Workflow not launched, reason: " ++ m2], []⟩
      | .error e => ⟨.error e, [], []⟩
    | .error e => ⟨.error e, [], []⟩
    | .ok j =>
      match jsonSubscript j "batch_workflow_id" with
      | .ok v => ⟨.ok (some v), [], []⟩
      | .error (.typeError m) =>
        match pyExceptionGetattr "message" m with
        | .ok m2 => ⟨.ok none, ["Batch Workflow not launched, reason: " ++ m2], []⟩
        | .error e => ⟨.error e, [], []⟩
      | .error e => ⟨.error e, [], []⟩

/-- `Workflow.batch_workflow_status`: GET the batch resource and return
the full parsed body (no `raise_for_status`). -/
def Workflow.batch_workflow_status (w : Workflow) (batch_workflow_id : String) : CallResult Json :=
  let lg := ["Get status of batch workflow: " ++ batch_workflow_id]
  match w.gbdx_connection ⟨.get, batchWorkflowsUrl ++ "/" ++ batch_workflow_id, none, none⟩ with
  | .raiseTypeError m => ⟨.error (.typeError m), lg, []⟩
  | .resp r => ⟨r.json, lg, []⟩

/-- `Workflow.batch_workflow_cancel`: POST to the batch `/cancel`
sub-resource and return the full parsed body; the source performs no
status check on this response. -/
def Workflow.batch_workflow_cancel (w : Workflow) (batch_workflow_id : String) : CallResult Json :=
  let lg := ["Cancel batch workflow: " ++ batch_workflow_id]
  match w.gbdx_connection ⟨.post, batchWorkflowsUrl ++ "/" ++ batch_workflow_id ++ "/cancel", none, none⟩ with
  | .raiseTypeError m => ⟨.error (.typeError m), lg, []⟩
  | .resp r => ⟨r.json, lg, []⟩

/-- Python `d[key] = v` on a parsed JSON object: replace the value of an
existing key, or append the binding when the key is new. (On a non-object
it leaves the value unchanged; every use below assigns into an object.) -/
def Json.setKey : Json → String → Json → Json
  | .obj fields, key, v =>
    if fields.any (fun p => p.1 == key)
    then .obj (fields.map fun p => if p.1 == key then (p.1, v) else p)
    else .obj (fields ++ [(key, v)])
  | j, _, _ => j

/-- Apply `f` to the value of `key` in a JSON object, mirroring a chained
Python subscript on the left of an assignment. -/
def Json.modifyKey : Json → String → (Json → Json) → Json
  | .obj fields, key, f =>
    .obj (fields.map fun p => if p.1 == key then (p.1, f p.2) else p)
  | j, _, _ => j

/-- Apply `f` to element `i` of a JSON array. -/
def Json.modifyIdx : Json → Nat → (Json → Json) → Json
  | .arr xs, i, f => .arr (xs.mapIdx fun k x => if k = i then f x else x)
  | j, _, _ => j

/-- First task of the `aop_to_s3` template, as parsed by `json.loads`
from the literal in the source. The source literal lists
`containerDescriptors` twice with the same value; `json.loads` keeps the
last duplicate, so the parsed object carries it once. -/
def aopTask0 : Json := .obj
  [("containerDescriptors",
      .arr [.obj [("properties", .obj [("domain", .str "raid")])]]),
   ("name", .str "AOP"),
   ("inputs", .arr
      [.obj [("name", .str "data"), ("value", .str "INPUT_BUCKET")],
       .obj [("name", .str "bands"), ("value", .str "Auto")],
       .obj [("name", .str "enable_acomp"), ("value", .str "false")],
       .obj [("name", .str "enable_dra"), ("value", .str "false")],
       .obj [("name", .str "ortho_epsg"), ("value", .str "EPSG:4326")],
       .obj [("name", .str "enable_pansharpen"), ("value", .str "false")]]),
   ("outputs", .arr [.obj [("name", .str "data")], .obj [("name", .str "log")]]),
   ("timeout", .num 36000),
   ("taskType", .str "AOP_Strip_Processor")]

/-- Second task of the `aop_to_s3` template. -/
def aopTask1 : Json := .obj
  [("inputs", .arr
      [.obj [("source", .str "AOP:data"), ("name", .str "data")],
       .obj [("name", .str "destination"), ("value", .str "OUTPUT_BUCKET")]]),
   ("name", .str "StageToS3"),
   ("taskType", .str "StageDataToS3"),
   ("containerDescriptors",
      .arr [.obj [("properties", .obj [("domain", .str "raid")])]])]

/-- The `aop_to_s3` workflow template. -/
def aopToS3Template : Json :=
  .obj [("tasks", .arr [aopTask0, aopTask1]), ("name", .str "aop_to_s3")]

/-- The assignment `payload['tasks'][ti]['inputs'][ii]['value'] = v`. -/
def setTaskInputValue (payload : Json) (ti ii : Nat) (v : String) : Json :=
  payload.modifyKey "tasks" fun ts => ts.modifyIdx ti fun t =>
    t.modifyKey "inputs" fun ins => ins.modifyIdx ii fun inp =>
      inp.setKey "value" (.str v)

/-- Python `sep.join(parts)`. -/
def strJoin (sep : String) : List String → String
  | [] => ""
  | [x] => x
  | x :: xs => x ++ sep ++ strJoin sep xs

/-- The workflow payload `launch_aop_to_s3` builds and hands to `launch`:
the template with the caller's parameters substituted into the first
task's input values (positions 0 through 5: data, bands, enable_acomp,
enable_dra, ortho_epsg, enable_pansharpen) and the output location,
computed from the account's bucket and its key named `prefix`, placed in
the second task's `destination` input. -/
def launchAopToS3Payload (input_location output_location bands ortho_epsg
    enable_pansharpen enable_acomp enable_dra bucket pfx : String) : Json :=
  let a0 := aopToS3Template
  let a1 := setTaskInputValue a0 0 0 input_location
  let a2 := setTaskInputValue a1 0 1 bands
  let a3 := setTaskInputValue a2 0 2 enable_acomp
  let a4 := setTaskInputValue a3 0 3 enable_dra
  let a5 := setTaskInputValue a4 0 4 ortho_epsg
  let a6 := setTaskInputValue a5 0 5 enable_pansharpen
  let output_location_final := "s3://" ++ strJoin "/" [bucket, pfx, output_location]
  setTaskInputValue a6 1 1 output_location_final

/-- `Workflow.launch_aop_to_s3`: build the payload from the instance's
S3 info and delegate to `launch` (with its debug line logged first). -/
def Workflow.launch_aop_to_s3 (w : Workflow) (input_location output_location bands
    ortho_epsg enable_pansharpen enable_acomp enable_dra : String) :
    CallResult (Option Json) :=
  let payload := launchAopToS3Payload input_location output_location bands
    ortho_epsg enable_pansharpen enable_acomp enable_dra w.s3.bucket w.s3.pfx
  let r := Workflow.launch w payload
  ⟨r.result, "Launch workflow" :: r.logs, r.prints⟩

/-- The `value` of the input named `nm` of task number `ti` of a workflow
payload (an observation used by the statements below, not by the client
itself). -/
def taskInputValue (payload : Json) (ti : Nat) (nm : String) : Option Json := do
  let ts ← payload.get? "tasks"
  let t ← ts.getIdx? ti
  let ins ← t.get? "inputs"
  match ins with
  | .arr xs => do
    let inp ← xs.find? (fun inp =>
      match inp.get? "name" with
      | some (.str s) => s == nm
      | _ => false)
    inp.get? "value"
  | _ => none

/-- The task-name part of a `source` reference such as `"AOP:data"`: the
characters before the first colon. -/
def sourceTask (s : String) : String :=
  (s.toList.takeWhile (fun c => c ≠ ':')).asString

/-- All `source` references among a task's inputs. -/
def Json.inputSources (t : Json) : List String :=
  match t.get? "inputs" with
  | some (.arr xs) =>
    xs.filterMap (fun inp =>
      match inp.get? "source" with
      | some (.str s) => some s
      | _ => none)
  | _ => []

/-- A task's `name` field, when it is a string. -/
def Json.taskName? (t : Json) : Option String :=
  match t.get? "name" with
  | some (.str s) => some s
  | _ => none

/-- Walk the task sequence carrying the names seen so far; every `source`
reference must name an earlier task. -/
def producerBeforeConsumerAux : List Json → List String → Bool
  | [], _ => true
  | t :: ts, seen =>
    (t.inputSources.all fun s => seen.contains (sourceTask s)) &&
    producerBeforeConsumerAux ts (seen ++ (t.taskName?).toList)

/-- The producer-before-consumer invariant of a workflow payload: each
input's `source` names a task appearing earlier in the `tasks` sequence. -/
def producerBeforeConsumer (payload : Json) : Bool :=
  match payload.get? "tasks" with
  | some (.arr ts) => producerBeforeConsumerAux ts []
  | _ => false


/-- Claim C1, counterexample: `status` performs no status check at all.
Against a transport answering the status GET with HTTP 500 and a JSON
body whose `state` is `"failed"`, the call returns that state instead of
failing with RequestFailed; and against the spec's own scenario — HTTP
500 with the non-JSON body `server error` — it fails with a JSON parse
error (ValueError), not with RequestFailed carrying code 500. -/
theorem status_counterexample_no_status_check :
    (Workflow.status ⟨fun _ => .resp ⟨500, "body", some (.obj [("state", .str "failed")])⟩, ⟨"b", "p"⟩⟩ "w1").result = .ok (.str "failed") ∧
    (Workflow.status ⟨fun _ => .resp ⟨500, "server error", none⟩, ⟨"b", "p"⟩⟩ "w1").result = .error (.jsonError "server error") :=
  ⟨rfl, rfl⟩

/-- Claim C1, amended: `status` never inspects the HTTP status code. For
every transport response, when the body parses as JSON with a `state`
field the call returns that field — 2xx or not — and when the body is
not JSON (such as 500 with body `server error`) it fails with the JSON
parse error, not with RequestFailed. -/
theorem status_returns_state_without_status_check (workflow_id : String)
    (r : Response) (s : S3Info) :
    (∀ j v, r.jsonBody = some j → jsonSubscript j "state" = .ok v →
      (Workflow.status ⟨fun _ => .resp r, s⟩ workflow_id).result = .ok v) ∧
    (r.jsonBody = none →
      (Workflow.status ⟨fun _ => .resp r, s⟩ workflow_id).result =
        .error (.jsonError r.text)) := by
  constructor
  · intro j v hb hv
    simp [Workflow.status, Response.json, hb, hv]
  · intro hb
    simp [Workflow.status, Response.json, hb]

/-- Claim C1, witness for the amended statement: a concrete 500 response
with a JSON `state` is passed through. -/
theorem status_returns_state_witness :
    (Workflow.status ⟨fun _ => .resp ⟨500, "ok-json", some (.obj [("state", .str "succeeded")])⟩, ⟨"b", "p"⟩⟩ "w2").result = .ok (.str "succeeded") :=
  (status_returns_state_without_status_check "w2"
    ⟨500, "ok-json", some (.obj [("state", .str "succeeded")])⟩ ⟨"b", "p"⟩).1
    (.obj [("state", .str "succeeded")]) (.str "succeeded") rfl rfl

/-- Claim C2: with default optional arguments, the `aop_to_s3` payload's
first task carries inputs bands = Auto, enable_acomp = false,
enable_dra = false, ortho_epsg = EPSG:4326, enable_pansharpen = false,
its `data` input is the given input location, and the second task's
`destination` is s3:// followed by the account bucket, the account
prefix and the caller's output location, joined with slashes. -/
theorem launch_aop_to_s3_default_payload (bucket pfx : String) :
    taskInputValue (launchAopToS3Payload "s3://in/path" "out/prefix" "Auto" "EPSG:4326" "false" "false" "false" bucket pfx) 0 "bands" = some (.str "Auto") ∧
    taskInputValue (launchAopToS3Payload "s3://in/path" "out/prefix" "Auto" "EPSG:4326" "false" "false" "false" bucket pfx) 0 "enable_acomp" = some (.str "false") ∧
    taskInputValue (launchAopToS3Payload "s3://in/path" "out/prefix" "Auto" "EPSG:4326" "false" "false" "false" bucket pfx) 0 "enable_dra" = some (.str "false") ∧
    taskInputValue (launchAopToS3Payload "s3://in/path" "out/prefix" "Auto" "EPSG:4326" "false" "false" "false" bucket pfx) 0 "ortho_epsg" = some (.str "EPSG:4326") ∧
    taskInputValue (launchAopToS3Payload "s3://in/path" "out/prefix" "Auto" "EPSG:4326" "false" "false" "false" bucket pfx) 0 "enable_pansharpen" = some (.str "false") ∧
    taskInputValue (launchAopToS3Payload "s3://in/path" "out/prefix" "Auto" "EPSG:4326" "false" "false" "false" bucket pfx) 0 "data" = some (.str "s3://in/path") ∧
    taskInputValue (launchAopToS3Payload "s3://in/path" "out/prefix" "Auto" "EPSG:4326" "false" "false" "false" bucket pfx) 1 "destination" = some (.str ("s3://" ++ bucket ++ "/" ++ pfx ++ "/out/prefix")) := by
  refine ⟨rfl, rfl, rfl, rfl, rfl, rfl, ?_⟩
  have h1 : taskInputValue (launchAopToS3Payload "s3://in/path" "out/prefix" "Auto" "EPSG:4326" "false" "false" "false" bucket pfx) 1 "destination" = some (.str ("s3://" ++ (bucket ++ "/" ++ (pfx ++ "/" ++ "out/prefix")))) := rfl
  have h2 : ("/" : String) ++ "out/prefix" = "/out/prefix" := rfl
  rw [h1]
  simp [String.append_assoc, h2]

/-- Claim C3: `launch` on a 2xx response returns the `id` field of the
parsed body with no diagnostics; on a non-2xx response it prints the
status code and the response body and fails with RequestFailed carrying
them. -/
theorem launch_extracts_id_and_reports_failure (workflow : Json)
    (r : Response) (s : S3Info) :
    (∀ j v, 200 ≤ r.status_code → r.status_code < 300 → r.jsonBody = some j →
      jsonSubscript j "id" = .ok v →
      Workflow.launch ⟨fun _ => .resp r, s⟩ workflow = ⟨.ok (some v), [], []⟩) ∧
    (¬(200 ≤ r.status_code ∧ r.status_code < 300) →
      Workflow.launch ⟨fun _ => .resp r, s⟩ workflow =
        ⟨.error (.requestFailed r.status_code r.text), [],
          ["GBDX API Status Code: " ++ toString r.status_code,
           "GBDX API Response: " ++ r.text]⟩) := by
  constructor
  · intro j v h1 h2 hb hv
    simp [Workflow.launch, Response.raise_for_status, Response.json, h1, h2, hb, hv]
  · intro h
    simp [Workflow.launch, Response.raise_for_status, h]

/-- Claim C3, witness: HTTP 500 with body `oops` is printed and becomes
RequestFailed 500. -/
theorem launch_failure_witness :
    Workflow.launch ⟨fun _ => .resp ⟨500, "oops", none⟩, ⟨"b", "p"⟩⟩ (Json.obj []) =
      ⟨.error (.requestFailed 500 "oops"), [],
        ["GBDX API Status Code: 500", "GBDX API Response: oops"]⟩ :=
  (launch_extracts_id_and_reports_failure (Json.obj []) ⟨500, "oops", none⟩
    ⟨"b", "p"⟩).2 (by decide)

/-- Claim C4: `cancel` succeeds (returns unit) exactly when the server
answers 2xx; every non-2xx response makes it fail. -/
theorem cancel_error_iff_non_2xx (workflow_id : String) (r : Response) (s : S3Info) :
    (Workflow.cancel ⟨fun _ => .resp r, s⟩ workflow_id).result = .ok () ↔
      (200 ≤ r.status_code ∧ r.status_code < 300) := by
  simp only [Workflow.cancel, Response.raise_for_status]
  split
  · simp_all
  · simp_all

/-- Claim C5: `events` returns the `Events` field of the parsed body
verbatim, without modifying, filtering or interpreting it. -/
theorem events_returns_events_verbatim (workflow_id : String) (r : Response)
    (s : S3Info) (j evs : Json) (hb : r.jsonBody = some j)
    (hv : jsonSubscript j "Events" = .ok evs) :
    (Workflow.events ⟨fun _ => .resp r, s⟩ workflow_id).result = .ok evs := by
  simp [Workflow.events, Response.json, hb, hv]

/-- Claim C5, witness: the one-element event list of the spec's scenario
comes back exactly as sent. -/
theorem events_verbatim_witness :
    (Workflow.events ⟨fun _ => .resp ⟨200, "body", some (.obj [("Events", .arr [.obj [("type", .str "submitted")]])])⟩, ⟨"b", "p"⟩⟩ "w1").result =
      .ok (.arr [.obj [("type", .str "submitted")]]) :=
  events_returns_events_verbatim "w1"
    ⟨200, "body", some (.obj [("Events", .arr [.obj [("type", .str "submitted")]])])⟩
    ⟨"b", "p"⟩ (.obj [("Events", .arr [.obj [("type", .str "submitted")]])])
    (.arr [.obj [("type", .str "submitted")]]) rfl rfl

/-- Claim C6: when the session's `post` raises a TypeError before the
launch request is sent, `launch` swallows it, writes only the debug line
and returns no handle (None) instead of propagating an error. -/
theorem launch_swallows_type_error (workflow : Json) (msg : String) (s : S3Info) :
    Workflow.launch ⟨fun _ => .raiseTypeError msg, s⟩ workflow =
      ⟨.ok none, ["Workflow not launched!"], []⟩ := rfl

/-- Claim C7: `batch_workflow_cancel` returns exactly the parsed JSON of
whatever response the transport produced — any status code, 2xx or not —
with no failure check. -/
theorem batch_workflow_cancel_no_failure_check (batch_workflow_id : String)
    (r : Response) (s : S3Info) :
    (Workflow.batch_workflow_cancel ⟨fun _ => .resp r, s⟩ batch_workflow_id).result =
      r.json := rfl

/-- Claim C8: `describe_task` fails on every non-2xx response — with the
NotFound error (RequestFailed carrying 404) when the status is 404 — and
on a 2xx response returns the full parsed JSON body. -/
theorem describe_task_not_found_or_body (task_name : String) (r : Response)
    (s : S3Info) :
    (¬(200 ≤ r.status_code ∧ r.status_code < 300) →
      ∃ e, (Workflow.describe_task ⟨fun _ => .resp r, s⟩ task_name).result = .error e ∧
        (r.status_code = 404 → e.isNotFound = true)) ∧
    (∀ j, 200 ≤ r.status_code → r.status_code < 300 → r.jsonBody = some j →
      (Workflow.describe_task ⟨fun _ => .resp r, s⟩ task_name).result = .ok j) := by
  constructor
  · intro h
    refine ⟨.requestFailed r.status_code r.text, ?_, ?_⟩
    · simp [Workflow.describe_task, Response.raise_for_status, h]
    · intro h404
      rw [h404]
      rfl
  · intro j h1 h2 hb
    simp [Workflow.describe_task, Response.raise_for_status, Response.json, h1, h2, hb]

/-- Claim C8, witness: a 404 on an unknown task name yields the NotFound
error. -/
theorem describe_task_witness :
    ∃ e, (Workflow.describe_task ⟨fun _ => .resp ⟨404, "no such task", none⟩, ⟨"b", "p"⟩⟩ "NoSuchTask").result = .error e ∧
      ((404 : Nat) = 404 → e.isNotFound = true) :=
  (describe_task_not_found_or_body "NoSuchTask" ⟨404, "no such task", none⟩
    ⟨"b", "p"⟩).1 (by decide)

/-- Claim C9: for every choice of arguments and account bucket/prefix,
the payload built by `launch_aop_to_s3` satisfies the
producer-before-consumer invariant — each input's `source` reference
names a task appearing earlier in the task sequence. -/
theorem launch_aop_to_s3_producer_before_consumer (input_location output_location
    bands ortho_epsg enable_pansharpen enable_acomp enable_dra bucket pfx : String) :
    producerBeforeConsumer (launchAopToS3Payload input_location output_location
      bands ortho_epsg enable_pansharpen enable_acomp enable_dra bucket pfx) = true := rfl

/-- Claim C10: when the session raises a TypeError, the `except` handler
of `launch_batch_workflow` evaluates `e.message` — an attribute Python 3
exceptions do not have — so the call ends in an AttributeError, with no
debug line logged and no None return. -/
theorem launch_batch_workflow_attribute_error (batch_workflow : Json)
    (msg : String) (s : S3Info) :
    Workflow.launch_batch_workflow ⟨fun _ => .raiseTypeError msg, s⟩ batch_workflow =
      ⟨.error (.attributeError "message"), [], []⟩ := rfl

end Gbdxtools
